import Mathlib

/-
Verification development for the Flight SQL TypeScript client.

Part 1 models the do-get frame reassembly (flight-client source:
createIPCMessage, calculatePadding, writeUint32, convertFlightDataToIPC,
processFlightDataMessages).  Bytes are Nat values below 256, byte buffers
are List Nat.  The external columnar decoder (tableFromIPC) is a pure
function of the byte stream it receives, so a Table at this level is
modelled by the exact IPC byte stream handed to that decoder; the empty
table `new Table()` is the empty stream.
-/

/-- One do-get stream frame as buffered by the client: an optional header
byte buffer and an optional body byte buffer, mirroring the TypeScript
record type with optional header and body fields. -/
structure FlightDataMsg where
  header : Option (List Nat)
  body : Option (List Nat)
deriving DecidableEq, Repr

/-- writeUint32 of the source, restricted to the four bytes it stores:
DataView.setUint32 with littleEndian = true writes value mod 2^32 as four
little-endian bytes. -/
def writeUint32LE (value : Nat) : List Nat :=
  [value % 256, value / 256 % 256, value / 65536 % 256, value / 16777216 % 256]

/-- Reads the first four bytes of a buffer as a little-endian 32-bit
unsigned integer (the observation the spec invariants are phrased in).
Buffers shorter than four bytes read as 0. -/
def readUint32LE : List Nat → Nat
  | b0 :: b1 :: b2 :: b3 :: _ => b0 + 256 * b1 + 65536 * b2 + 16777216 * b3
  | _ => 0

/-- calculatePadding of the source: padding to the next 8-byte boundary,
computed from the header (message) length alone. -/
def calculatePadding (messageLength : Nat) : Nat :=
  (8 - messageLength % 8) % 8

/-- createIPCMessage of the source: continuation marker 0xFFFFFFFF, then
the header length, both as little-endian 32-bit values, then the raw
header bytes, then zero padding, then the raw body bytes.  The source
allocates a zero-filled buffer of size 4 + 4 + messageLength +
paddingLength + bodyLength and writes each piece at its offset, which is
the same byte string as this concatenation.  An absent body contributes
zero bytes. -/
def createIPCMessage (header : List Nat) (body : Option (List Nat)) : List Nat :=
  let messageLength := header.length
  let paddingLength := calculatePadding messageLength
  writeUint32LE 4294967295 ++ writeUint32LE messageLength ++ header ++
    List.replicate paddingLength 0 ++ body.getD []

/-- convertFlightDataToIPC of the source: walk the frames in arrival
order, skip any frame whose header is absent or zero-length, and emit one
IPC message block for each remaining frame. -/
def convertFlightDataToIPC : List FlightDataMsg → List (List Nat)
  | [] => []
  | m :: rest =>
    match m.header with
    | none => convertFlightDataToIPC rest
    | some h =>
      if h.length = 0 then convertFlightDataToIPC rest
      else createIPCMessage h m.body :: convertFlightDataToIPC rest

/-- tableFromIPC (external decoder) consumes the concatenation of the
emitted IPC parts; at this level the decoded table is identified with
that byte stream. -/
def tableFromIPC (ipcParts : List (List Nat)) : List Nat :=
  ipcParts.flatten

/-- processFlightDataMessages of the source: an empty frame list returns
`new Table()` (the empty, schema-less table, here the empty stream);
otherwise the frames are converted and handed to the external decoder. -/
def processFlightDataMessages (messages : List FlightDataMsg) : List Nat :=
  if messages.length = 0 then []
  else tableFromIPC (convertFlightDataToIPC messages)

/-- A frame the reassembly skips: header absent or zero-length. -/
def skippableFrame (m : FlightDataMsg) : Prop :=
  m.header = none ∨ m.header = some []

instance (m : FlightDataMsg) : Decidable (skippableFrame m) := by
  unfold skippableFrame; infer_instance

lemma readUint32LE_writeUint32LE (v : Nat) (rest : List Nat) (hv : v < 4294967296) :
    readUint32LE (writeUint32LE v ++ rest) = v := by
  simp only [writeUint32LE, List.cons_append, List.nil_append, readUint32LE]
  omega

lemma writeUint32LE_length (v : Nat) : (writeUint32LE v).length = 4 := rfl

lemma drop4_writeUint32LE (v : Nat) (rest : List Nat) :
    (writeUint32LE v ++ rest).drop 4 = rest := rfl

/-- Membership form of convertFlightDataToIPC: the block built from a
buffered frame with a non-empty header appears among the emitted blocks. -/
lemma createIPCMessage_mem_convert (frames : List FlightDataMsg)
    (h : List Nat) (b : Option (List Nat))
    (hmem : FlightDataMsg.mk (some h) b ∈ frames) (hne : h ≠ []) :
    createIPCMessage h b ∈ convertFlightDataToIPC frames := by
  induction frames with
  | nil => cases hmem
  | cons f rest ih =>
    rcases List.mem_cons.mp hmem with heq | htail
    · subst heq
      simp only [convertFlightDataToIPC]
      rw [if_neg (by simpa [List.length_eq_zero] using hne)]
      exact List.mem_cons_self _ _
    · have hrec := ih htail
      cases hf : f.header with
      | none => simpa [convertFlightDataToIPC, hf] using hrec
      | some fh =>
        by_cases hlen : fh.length = 0
        · simpa [convertFlightDataToIPC, hf, hlen] using hrec
        · simp only [convertFlightDataToIPC, hf]
          rw [if_neg hlen]
          exact List.mem_cons_of_mem _ hrec

/-- C1.  Every message block emitted during do-get reassembly for a frame
with a non-empty header starts with four bytes reading 0xFFFFFFFF
little-endian, followed by four bytes reading the header byte length
little-endian, and the padding chosen for the block satisfies
(4 + 4 + len(header) + padding) mod 8 = 0 with 0 <= padding < 8. -/
theorem c1_message_block_framing (frames : List FlightDataMsg)
    (h : List Nat) (b : Option (List Nat))
    (hmem : FlightDataMsg.mk (some h) b ∈ frames)
    (hne : h ≠ []) (hlen : h.length < 4294967296) :
    createIPCMessage h b ∈ convertFlightDataToIPC frames ∧
    readUint32LE (createIPCMessage h b) = 4294967295 ∧
    readUint32LE ((createIPCMessage h b).drop 4) = h.length ∧
    (4 + 4 + h.length + calculatePadding h.length) % 8 = 0 ∧
    calculatePadding h.length < 8 := by
  refine ⟨createIPCMessage_mem_convert frames h b hmem hne, ?_, ?_, ?_, ?_⟩
  · show readUint32LE (writeUint32LE 4294967295 ++ _) = 4294967295
    exact readUint32LE_writeUint32LE _ _ (by norm_num)
  · show readUint32LE ((writeUint32LE 4294967295 ++
      (writeUint32LE h.length ++ _)).drop 4) = h.length
    rw [drop4_writeUint32LE]
    exact readUint32LE_writeUint32LE _ _ hlen
  · unfold calculatePadding; omega
  · unfold calculatePadding; omega

/-- Witness for C1 at a concrete frame list. -/
theorem c1_message_block_framing_witness :
    createIPCMessage [7] (some [9]) ∈
      convertFlightDataToIPC [⟨some [7], some [9]⟩] ∧
    readUint32LE (createIPCMessage [7] (some [9])) = 4294967295 ∧
    readUint32LE ((createIPCMessage [7] (some [9])).drop 4) = 1 ∧
    (4 + 4 + 1 + calculatePadding 1) % 8 = 0 ∧
    calculatePadding 1 < 8 :=
  c1_message_block_framing [⟨some [7], some [9]⟩] [7] (some [9])
    (by decide) (by decide) (by norm_num)

/-- C2 counterexample.  The claim reads the padding as bringing the total
of (4-byte length prefix + header) up to a multiple of 8.  For the
8-byte header the code chooses padding 0, and 4 + 8 + 0 = 12 is not a
multiple of 8: the quantity the code aligns also includes the 4-byte
continuation marker. -/
theorem c2_padding_counterexample :
    calculatePadding ([1, 1, 1, 1, 1, 1, 1, 1] : List Nat).length = 0 ∧
    ¬ ((4 + ([1, 1, 1, 1, 1, 1, 1, 1] : List Nat).length +
        calculatePadding ([1, 1, 1, 1, 1, 1, 1, 1] : List Nat).length) % 8 = 0) := by
  decide

/-- C2 as amended.  For a frame with a non-empty header, the zero padding
after the raw header bytes brings the total of (continuation marker +
length prefix + header) up to a multiple of 8; the raw body bytes follow
verbatim with nothing after them, and the whole block has length
8 + len(header) + padding + len(body), so in the concatenated stream the
next message block starts immediately after the body. -/
theorem c2_padding_and_body_layout (h b : List Nat) (hne : h ≠ []) :
    ((createIPCMessage h (some b)).drop (8 + h.length)).take
        (calculatePadding h.length) =
      List.replicate (calculatePadding h.length) 0 ∧
    (4 + 4 + h.length + calculatePadding h.length) % 8 = 0 ∧
    createIPCMessage h (some b) = createIPCMessage h none ++ b ∧
    (createIPCMessage h (some b)).length =
      8 + h.length + calculatePadding h.length + b.length ∧
    tableFromIPC [createIPCMessage h (some b), createIPCMessage h (some b)] =
      createIPCMessage h (some b) ++ createIPCMessage h (some b) := by
  have hblock : createIPCMessage h (some b) =
      (writeUint32LE 4294967295 ++ writeUint32LE h.length ++ h) ++
        (List.replicate (calculatePadding h.length) 0 ++ b) := by
    simp [createIPCMessage, List.append_assoc]
  have key : ∀ L rest : List Nat, L.length = 8 + h.length →
      (L ++ rest).drop (8 + h.length) = rest := by
    intro L rest hL
    rw [← hL]
    simp
  refine ⟨?_, ?_, ?_, ?_, ?_⟩
  · rw [hblock, key _ _ (by simp [writeUint32LE]; omega)]
    rw [List.take_append_of_le_length (by simp)]
    simp
  · unfold calculatePadding; omega
  · simp [createIPCMessage, List.append_assoc]
  · rw [hblock]
    simp only [List.length_append, writeUint32LE_length, List.length_replicate]
    omega
  · simp [tableFromIPC]

/-- Witness for C2 as amended, at a concrete header and body. -/
theorem c2_padding_and_body_layout_witness :
    ((createIPCMessage [1, 2, 3] (some [9, 9])).drop (8 + 3)).take
        (calculatePadding 3) = List.replicate (calculatePadding 3) 0 ∧
    (4 + 4 + 3 + calculatePadding 3) % 8 = 0 ∧
    createIPCMessage [1, 2, 3] (some [9, 9]) =
      createIPCMessage [1, 2, 3] none ++ [9, 9] ∧
    (createIPCMessage [1, 2, 3] (some [9, 9])).length =
      8 + 3 + calculatePadding 3 + 2 ∧
    tableFromIPC [createIPCMessage [1, 2, 3] (some [9, 9]),
        createIPCMessage [1, 2, 3] (some [9, 9])] =
      createIPCMessage [1, 2, 3] (some [9, 9]) ++
        createIPCMessage [1, 2, 3] (some [9, 9]) :=
  c2_padding_and_body_layout [1, 2, 3] [9, 9] (by decide)

/-- C5.  A frame whose header is absent or zero-length contributes zero
bytes to the reassembled stream and leaves the blocks of every other
frame unchanged; reassembling the empty frame sequence yields the empty
schema-less table, and so does a sequence made only of such frames. -/
theorem c5_skippable_frames (pre post : List FlightDataMsg) (f : FlightDataMsg)
    (hf : skippableFrame f)
    (frames : List FlightDataMsg) (hall : ∀ g ∈ frames, skippableFrame g) :
    convertFlightDataToIPC (pre ++ f :: post) =
      convertFlightDataToIPC (pre ++ post) ∧
    processFlightDataMessages [] = [] ∧
    processFlightDataMessages frames = [] := by
  have skip_cons : ∀ (g : FlightDataMsg) (rest : List FlightDataMsg),
      skippableFrame g →
      convertFlightDataToIPC (g :: rest) = convertFlightDataToIPC rest := by
    intro g rest hg
    rcases hg with hg | hg <;> simp [convertFlightDataToIPC, hg]
  refine ⟨?_, rfl, ?_⟩
  · induction pre with
    | nil => simpa using skip_cons f post hf
    | cons p ps ih =>
      cases hp : p.header with
      | none => simpa [convertFlightDataToIPC, hp] using ih
      | some ph =>
        by_cases hlen : ph.length = 0
        · simpa [convertFlightDataToIPC, hp, hlen] using ih
        · simp only [List.cons_append, convertFlightDataToIPC, hp]
          rw [if_neg hlen, if_neg hlen]
          show createIPCMessage ph p.body :: convertFlightDataToIPC (ps ++ f :: post) =
            createIPCMessage ph p.body :: convertFlightDataToIPC (ps ++ post)
          rw [ih]
  · have hconv : convertFlightDataToIPC frames = [] := by
      induction frames with
      | nil => rfl
      | cons g rest ih =>
        rw [skip_cons g rest (hall g (List.mem_cons_self g rest))]
        exact ih fun x hx => hall x (List.mem_cons_of_mem g hx)
    cases frames with
    | nil => rfl
    | cons g rest =>
      simp [processFlightDataMessages, tableFromIPC, hconv]

/-- Witness for C5 at concrete frame lists. -/
theorem c5_skippable_frames_witness :
    convertFlightDataToIPC ([⟨some [1], none⟩] ++ ⟨none, some [5]⟩ :: [⟨some [2], none⟩]) =
      convertFlightDataToIPC ([⟨some [1], none⟩] ++ [⟨some [2], none⟩]) ∧
    processFlightDataMessages [] = [] ∧
    processFlightDataMessages [⟨none, some [5]⟩, ⟨some [], none⟩] = [] :=
  c5_skippable_frames [⟨some [1], none⟩] [⟨some [2], none⟩] ⟨none, some [5]⟩
    (Or.inl rfl) [⟨none, some [5]⟩, ⟨some [], none⟩] (by decide)

/-
Part 2 models the shared utilities (utils source: validateConfig,
parseErrorFromGrpc) and the client constructor.  The error classes of the
repository are FlightError and its subclasses; each carries a message and
an optional code string.  The taxonomy names of the specification map
onto them as follows: ConfigurationError is the FlightError thrown by
validateConfig, AuthenticationError (at the status-code boundary) is the
FlightError with code UNAUTHENTICATED, ServiceUnavailableError is the
FlightError with code UNAVAILABLE.
-/

/-- A FlightError value as constructed in the utilities: message plus
optional code string. -/
structure FlightErrorVal where
  message : String
  code : Option String
deriving DecidableEq, Repr

/-- The shape of a transport (gRPC) error as far as the mapping reads it:
an optional numeric status code and an optional message.  A missing or
empty message reads as falsy in the source. -/
structure GrpcErrorVal where
  code : Option Int
  message : Option String
deriving DecidableEq, Repr

/-- The message fallback of the source: error.message when present and
non-empty, otherwise the literal Unknown error. -/
def grpcMessageOrUnknown (m : Option String) : String :=
  match m with
  | none => "Unknown error"
  | some s => if s = "" then "Unknown error" else s

/-- parseErrorFromGrpc of the source: status 16 maps to the
authentication failure, status 14 to the unavailable failure, anything
else to a generic FlightError carrying the numeric code rendered as a
string. -/
def parseErrorFromGrpc (e : GrpcErrorVal) : FlightErrorVal :=
  if e.code = some 16 then ⟨"Authentication failed", some "UNAUTHENTICATED"⟩
  else if e.code = some 14 then ⟨"Service unavailable", some "UNAVAILABLE"⟩
  else ⟨grpcMessageOrUnknown e.message, e.code.map (fun c => toString c)⟩

/-- The configuration fields validateConfig reads. -/
structure ClientConfig where
  host : String
  port : Int
deriving DecidableEq, Repr

/-- validateConfig of the source: an empty host is rejected first, then a
port that is falsy (zero) or non-positive. -/
def validateConfig (config : ClientConfig) : Except FlightErrorVal Unit :=
  if config.host = "" then .error ⟨"Host is required", none⟩
  else if config.port = 0 ∨ config.port ≤ 0 then
    .error ⟨"Valid port number is required", none⟩
  else .ok ()

/-- The FlightClient constructor as far as validation is concerned: it
runs validateConfig and only then finishes construction. -/
def constructFlightClient (config : ClientConfig) : Except FlightErrorVal ClientConfig :=
  match validateConfig config with
  | .error e => .error e
  | .ok _ => .ok config

/-- C6.  At the Transport Session boundary, a transport error with status
code 16 maps to the authentication failure (the AuthenticationError kind
of the taxonomy, realized as FlightError with code UNAUTHENTICATED), code
14 maps to the unavailable failure (ServiceUnavailableError kind,
FlightError with code UNAVAILABLE), and any other code maps to a generic
error carrying that code converted to a string. -/
theorem c6_grpc_status_mapping (e : GrpcErrorVal) :
    (e.code = some 16 →
      parseErrorFromGrpc e = ⟨"Authentication failed", some "UNAUTHENTICATED"⟩) ∧
    (e.code = some 14 →
      parseErrorFromGrpc e = ⟨"Service unavailable", some "UNAVAILABLE"⟩) ∧
    (∀ c : Int, e.code = some c → c ≠ 16 → c ≠ 14 →
      parseErrorFromGrpc e =
        ⟨grpcMessageOrUnknown e.message, some (toString c)⟩) := by
  refine ⟨fun h16 => ?_, fun h14 => ?_, fun c hc h16 h14 => ?_⟩
  · simp [parseErrorFromGrpc, h16]
  · simp [parseErrorFromGrpc, h14]
  · have hne16 : e.code ≠ some 16 := by rw [hc]; simpa using h16
    have hne14 : e.code ≠ some 14 := by rw [hc]; simpa using h14
    simp [parseErrorFromGrpc, hne16, hne14, hc, h16, h14]

/-- Witness for C6 at concrete transport errors. -/
theorem c6_grpc_status_mapping_witness :
    parseErrorFromGrpc ⟨some 16, some "x"⟩ =
      ⟨"Authentication failed", some "UNAUTHENTICATED"⟩ ∧
    parseErrorFromGrpc ⟨some 14, none⟩ =
      ⟨"Service unavailable", some "UNAVAILABLE"⟩ ∧
    parseErrorFromGrpc ⟨some 5, some "boom"⟩ =
      ⟨grpcMessageOrUnknown (some "boom"), some (toString (5 : Int))⟩ :=
  ⟨(c6_grpc_status_mapping ⟨some 16, some "x"⟩).1 rfl,
   (c6_grpc_status_mapping ⟨some 14, none⟩).2.1 rfl,
   (c6_grpc_status_mapping ⟨some 5, some "boom"⟩).2.2 5 rfl
     (by decide) (by decide)⟩

/-- C7.  Client construction fails (with the ConfigurationError of the
taxonomy, the FlightError raised by validateConfig) exactly when the host
is empty or the port is not positive; in particular the three listed bad
configurations fail and the localhost configuration succeeds.  Ports are
integers here, matching the configuration surface of the specification. -/
theorem c7_config_validation :
    (∀ host : String, ∀ port : Int,
      constructFlightClient ⟨host, port⟩ =
        (if host = "" then .error ⟨"Host is required", none⟩
         else if port ≤ 0 then .error ⟨"Valid port number is required", none⟩
         else .ok ⟨host, port⟩)) ∧
    constructFlightClient ⟨"", 4317⟩ = .error ⟨"Host is required", none⟩ ∧
    constructFlightClient ⟨"x", 0⟩ = .error ⟨"Valid port number is required", none⟩ ∧
    constructFlightClient ⟨"x", -1⟩ = .error ⟨"Valid port number is required", none⟩ ∧
    constructFlightClient ⟨"localhost", 4317⟩ = .ok ⟨"localhost", 4317⟩ := by
  refine ⟨fun host port => ?_, rfl, rfl, rfl, rfl⟩
  by_cases hh : host = ""
  · simp [constructFlightClient, validateConfig, hh]
  · by_cases hp : port ≤ 0
    · have h0 : (port = 0 ∨ port ≤ 0) := Or.inr hp
      simp [constructFlightClient, validateConfig, hh, h0, hp]
    · have h0 : ¬ (port = 0 ∨ port ≤ 0) := by omega
      have hz : ¬ (port = 0) := by omega
      simp [constructFlightClient, validateConfig, hh, h0, hp, hz]

/-
Part 3 models the SQL command layer (flightsql-client source).  The
transport primitives getFlightInfo, doGet and doAction are collaborators;
an SQLEnv records their responses: getFlightInfo and doAction keyed on
the flight descriptor they are given, doGet keyed on the ticket bytes.
Serialized command payloads are represented symbolically (the codec is an
external pure function), so the descriptor a method sends is fully
observable.  A decoded table at this layer is its row list; a row maps
column names to cell values, a missing column reading as undefined
(none), exactly as property access behaves on the decoded row objects.
Thrown JavaScript errors are either FlightError instances (name, message,
optional code) or arbitrary other values with a string rendering; string
interpolation of a FlightError yields name, colon, space, message.
-/

/-- Serialized Flight SQL commands and action requests, symbolically. -/
inductive CmdBytes where
  | statementQuery (query : String)
  | preparedStatementQuery (handle : List Nat)
  | getCatalogsCmd
  | getTablesCmd (catalog dbSchema tableName : Option String)
      (tableTypes : Option (List String))
  | createPreparedStatementRequest (query : String)
  | closePreparedStatementRequest (handle : List Nat)
deriving DecidableEq, Repr

/-- A descriptor command payload: either wrapped in a protobuf Any with a
type URL (packCommand) or the raw serialized command bytes. -/
inductive CmdPayload where
  | anyPacked (typeUrl : String) (value : CmdBytes)
  | raw (value : CmdBytes)
deriving DecidableEq, Repr

/-- FlightDescriptor.DescriptorType. -/
inductive DescriptorTypeR where
  | PATH
  | CMD
deriving DecidableEq, Repr

/-- A FlightDescriptor as the command layer builds it: a descriptor type
and an optional command payload (setCmd may never be called). -/
structure DescriptorR where
  dtype : DescriptorTypeR
  cmd : Option CmdPayload
deriving DecidableEq, Repr

/-- A flight endpoint: its ticket may be absent. -/
structure FlightEndpointR where
  ticket : Option (List Nat)
deriving DecidableEq, Repr

/-- A FlightInfo response: the endpoint list. -/
structure FlightInfoR where
  endpointList : List FlightEndpointR
deriving DecidableEq, Repr

/-- One doAction result: its body bytes. -/
structure ActionResultR where
  body : List Nat
deriving DecidableEq, Repr

/-- A decoded row: column name to cell value pairs. -/
abbrev RowR := List (String × String)

/-- Property access on a decoded row object: the value of the named
column, or undefined (none) when the column is missing. -/
def rowGet (row : RowR) (col : String) : Option String :=
  (row.find? (fun p => p.1 = col)).map (fun p => p.2)

/-- A decoded table at the command layer: toArray yields its rows. -/
structure TableRowsR where
  rows : List RowR
deriving DecidableEq, Repr

/-- A thrown JavaScript error: a FlightError instance (FlightError or any
subclass, identified by its name) or any other thrown value. -/
inductive JSErrorR where
  | flightErr (name : String) (message : String) (code : Option String)
  | otherErr (rendering : String)
deriving DecidableEq, Repr

/-- The instanceof FlightError test. -/
def isFlightErrorInstance : JSErrorR → Bool
  | .flightErr _ _ _ => true
  | .otherErr _ => false

/-- String interpolation of a thrown error inside a template literal. -/
def errInterpolate : JSErrorR → String
  | .flightErr name msg _ => name ++ ": " ++ msg
  | .otherErr s => s

/-- Responses of the transport primitives the command layer drives. -/
structure SQLEnv where
  flightInfoResp : DescriptorR → Except JSErrorR FlightInfoR
  doGetResp : List Nat → Except JSErrorR TableRowsR
  doActionResp : DescriptorR → Except JSErrorR (List ActionResultR)

/-- A prepared statement value as returned by prepare (the schema fields
of the source are always undefined and carry no information). -/
structure PreparedStatementR where
  handle : List Nat
deriving DecidableEq, Repr

/-- The statement-query type URL constant of the source. -/
def COMMAND_STATEMENT_QUERY_URL : String :=
  "type.googleapis.com/arrow.flight.protocol.sql.CommandStatementQuery"

/-- packCommand of the source: wrap serialized command bytes in an Any
carrying the type URL. -/
def packCommand (value : CmdBytes) (typeUrl : String) : CmdPayload :=
  .anyPacked typeUrl value

/-- createCommandDescriptor of the source: a CMD descriptor whose payload
is the packed command. -/
def createCommandDescriptor (value : CmdBytes) (typeUrl : String) : DescriptorR :=
  ⟨.CMD, some (packCommand value typeUrl)⟩

/-- The catch clause of execute: a FlightError instance is re-thrown
unchanged, anything else is wrapped into a FlightSQLError. -/
def catchWrapExecute (r : Except JSErrorR TableRowsR) : Except JSErrorR TableRowsR :=
  match r with
  | .ok t => .ok t
  | .error e =>
    if isFlightErrorInstance e then .error e
    else .error (.flightErr "FlightSQLError"
      ("Failed to execute query: " ++ errInterpolate e) none)

/-- The catch clause shared by every other command-layer method: every
failure is wrapped into a FlightSQLError carrying the given context text
and the interpolated original error, with no instanceof test. -/
def catchWrapAll (contextText : String) (r : Except JSErrorR α) : Except JSErrorR α :=
  match r with
  | .ok a => .ok a
  | .error e =>
    .error (.flightErr "FlightSQLError" (contextText ++ errInterpolate e) none)

/-- getQueryTicket of the source: resolve the descriptor to a FlightInfo,
require a first endpoint, require its ticket. -/
def getQueryTicket (env : SQLEnv) (descriptor : DescriptorR) :
    Except JSErrorR (List Nat) :=
  match env.flightInfoResp descriptor with
  | .error err => .error err
  | .ok flightInfo =>
    match flightInfo.endpointList with
    | [] => .error (.flightErr "FlightSQLError" "No endpoints returned from query" none)
    | e :: _ =>
      match e.ticket with
      | none => .error (.flightErr "FlightSQLError" "No ticket returned from endpoint" none)
      | some t => .ok t

/-- execute of the source: pack a statement-query command into a CMD
descriptor, resolve it to a ticket, stream the ticket; FlightError
instances escape unchanged, other failures are wrapped. -/
def execute (env : SQLEnv) (query : String) : Except JSErrorR TableRowsR :=
  catchWrapExecute (
    match getQueryTicket env (createCommandDescriptor
        (CmdBytes.statementQuery query) COMMAND_STATEMENT_QUERY_URL) with
    | .error err => .error err
    | .ok ticket => env.doGetResp ticket)

/-- The action descriptor prepare sends: the create-prepared-statement
request carrying the query is constructed but never attached; what is
sent is a bare CMD descriptor with no command payload. -/
def prepareSentAction (query : String) : DescriptorR :=
  let _request := CmdBytes.createPreparedStatementRequest query
  ⟨.CMD, none⟩

/-- prepare of the source: send the action, require at least one result,
take the first result body as the handle; every failure is wrapped. -/
def prepare (env : SQLEnv) (query : String) : Except JSErrorR PreparedStatementR :=
  catchWrapAll "Failed to prepare statement: " (
    match env.doActionResp (prepareSentAction query) with
    | .error err => .error err
    | .ok [] =>
      .error (.flightErr "FlightSQLError" "No results returned from prepare statement" none)
    | .ok (r :: _) => .ok ⟨r.body⟩)

/-- The action descriptor closePrepared sends: the close request carrying
the handle is constructed but never attached; what is sent is a bare CMD
descriptor with no command payload. -/
def closePreparedSentAction (handle : List Nat) : DescriptorR :=
  let _request := CmdBytes.closePreparedStatementRequest handle
  ⟨.CMD, none⟩

/-- closePrepared of the source: send the action and discard its results;
every failure is wrapped. -/
def closePrepared (env : SQLEnv) (prepared : PreparedStatementR) :
    Except JSErrorR Unit :=
  catchWrapAll "Failed to close prepared statement: " (
    match env.doActionResp (closePreparedSentAction prepared.handle) with
    | .error err => .error err
    | .ok _ => .ok ())

/-- executePrepared of the source: a CMD descriptor with the raw
serialized prepared-statement-query command, then the same
endpoint/ticket choreography inline, then doGet and toArray; every
failure is wrapped, including the FlightSQLError values raised inline. -/
def executePrepared (env : SQLEnv) (prepared : PreparedStatementR) :
    Except JSErrorR (List RowR) :=
  catchWrapAll "Failed to execute prepared statement: " (
    match env.flightInfoResp
        ⟨.CMD, some (.raw (CmdBytes.preparedStatementQuery prepared.handle))⟩ with
    | .error err => .error err
    | .ok flightInfo =>
      match flightInfo.endpointList with
      | [] => .error (.flightErr "FlightSQLError" "No endpoints returned from prepared query" none)
      | e :: _ =>
        match e.ticket with
        | none => .error (.flightErr "FlightSQLError" "No ticket returned from endpoint" none)
        | some t =>
          match env.doGetResp t with
          | .error err => .error err
          | .ok table => .ok table.rows)

/-- getCatalogs of the source: a CMD descriptor with the raw serialized
get-catalogs command; zero endpoints or a missing ticket resolve to the
empty list; otherwise each decoded row is projected on catalog_name;
every failure is wrapped. -/
def getCatalogs (env : SQLEnv) : Except JSErrorR (List (Option String)) :=
  catchWrapAll "Failed to get catalogs: " (
    match env.flightInfoResp ⟨.CMD, some (.raw CmdBytes.getCatalogsCmd)⟩ with
    | .error err => .error err
    | .ok flightInfo =>
      match flightInfo.endpointList with
      | [] => .ok []
      | e :: _ =>
        match e.ticket with
        | none => .ok []
        | some t =>
          match env.doGetResp t with
          | .error err => .error err
          | .ok table => .ok (table.rows.map (fun row => rowGet row "catalog_name")))

/-- The typed row getTables produces per decoded row. -/
structure TableListingR where
  catalog : Option String
  schema : Option String
  tableName : Option String
  tableType : Option String
deriving DecidableEq, Repr

/-- getTables of the source: same choreography as getCatalogs, projecting
each row on the four protocol-fixed column names. -/
def getTables (env : SQLEnv) (catalog dbSchema tableName : Option String)
    (tableTypes : Option (List String)) : Except JSErrorR (List TableListingR) :=
  catchWrapAll "Failed to get tables: " (
    match env.flightInfoResp
        ⟨.CMD, some (.raw (CmdBytes.getTablesCmd catalog dbSchema tableName tableTypes))⟩ with
    | .error err => .error err
    | .ok flightInfo =>
      match flightInfo.endpointList with
      | [] => .ok []
      | e :: _ =>
        match e.ticket with
        | none => .ok []
        | some t =>
          match env.doGetResp t with
          | .error err => .error err
          | .ok table => .ok (table.rows.map (fun row =>
              ⟨rowGet row "catalog_name", rowGet row "db_schema_name",
               rowGet row "table_name", rowGet row "table_type"⟩)))

/-- ASCII case-insensitive character comparison. -/
def charMatchCaseless (a b : Char) : Bool :=
  a == b ||
    (a.toNat + 32 == b.toNat && decide (65 ≤ a.toNat) && decide (a.toNat ≤ 90)) ||
    (b.toNat + 32 == a.toNat && decide (65 ≤ b.toNat) && decide (b.toNat ≤ 90))

/-- Head-anchored case-insensitive match of a pattern against a list. -/
def startsWithCaseless : List Char → List Char → Bool
  | [], _ => true
  | _ :: _, [] => false
  | p :: ps, c :: cs => charMatchCaseless p c && startsWithCaseless ps cs

/-- Case-insensitive substring test on character lists. -/
def containsCaseless (pat : List Char) : List Char → Bool
  | [] => startsWithCaseless pat []
  | c :: t => startsWithCaseless pat (c :: t) || containsCaseless pat t

/-- Case-insensitive substring test on strings. -/
def containsText (s pat : String) : Bool :=
  containsCaseless pat.toList s.toList

/-- C3.  The action prepare transmits does not depend on the query: the
create-prepared-statement request carrying the query is constructed but
never attached, so the sent descriptor is the bare CMD descriptor with an
unset command payload, identical for every query; likewise the action
closePrepared transmits is identical for every handle, and the full
behavior of both methods is independent of query and handle. -/
theorem c3_prepare_actions_constant :
    (∀ q1 q2 : String, prepareSentAction q1 = prepareSentAction q2) ∧
    (∀ q : String, prepareSentAction q = ⟨.CMD, none⟩) ∧
    (∀ h1 h2 : List Nat, closePreparedSentAction h1 = closePreparedSentAction h2) ∧
    (∀ h : List Nat, closePreparedSentAction h = ⟨.CMD, none⟩) ∧
    (∀ (env : SQLEnv) (q1 q2 : String), prepare env q1 = prepare env q2) ∧
    (∀ (env : SQLEnv) (p1 p2 : PreparedStatementR),
      closePrepared env p1 = closePrepared env p2) :=
  ⟨fun _ _ => rfl, fun _ => rfl, fun _ _ => rfl, fun _ => rfl,
   fun _ _ _ => rfl, fun _ _ _ => rfl⟩

/-- C4.  When getFlightInfo yields zero endpoints, execute fails with the
protocol error of the taxonomy (realized as FlightSQLError) whose message
contains, up to letter case, the text no endpoints; when the first
endpoint carries no ticket, execute fails with the same error kind; under
the same two conditions getCatalogs resolves to the empty list instead of
failing. -/
theorem c4_no_endpoints_query_vs_metadata
    (dg : List Nat → Except JSErrorR TableRowsR)
    (da : DescriptorR → Except JSErrorR (List ActionResultR))
    (q : String) (rest : List FlightEndpointR) :
    execute ⟨fun _ => .ok ⟨[]⟩, dg, da⟩ q =
      .error (.flightErr "FlightSQLError" "No endpoints returned from query" none) ∧
    containsText "No endpoints returned from query" "no endpoints" = true ∧
    execute ⟨fun _ => .ok ⟨⟨none⟩ :: rest⟩, dg, da⟩ q =
      .error (.flightErr "FlightSQLError" "No ticket returned from endpoint" none) ∧
    getCatalogs ⟨fun _ => .ok ⟨[]⟩, dg, da⟩ = .ok [] ∧
    getCatalogs ⟨fun _ => .ok ⟨⟨none⟩ :: rest⟩, dg, da⟩ = .ok [] :=
  ⟨rfl, by decide, rfl, rfl, rfl⟩

/-- C10.  Every command-layer operation consumes only the ticket of the
first endpoint: with at least one endpoint present, execute,
executePrepared and getCatalogs reduce to doGet applied to the first
endpoint ticket (or to the missing-ticket outcome), and their results are
unchanged when the endpoints after the first are replaced arbitrarily, so
later tickets are never consumed. -/
theorem c10_only_first_endpoint_ticket
    (dg : List Nat → Except JSErrorR TableRowsR)
    (da : DescriptorR → Except JSErrorR (List ActionResultR))
    (q : String) (p : PreparedStatementR) (e : FlightEndpointR)
    (rest rest2 : List FlightEndpointR) :
    execute ⟨fun _ => .ok ⟨e :: rest⟩, dg, da⟩ q =
      execute ⟨fun _ => .ok ⟨e :: rest2⟩, dg, da⟩ q ∧
    execute ⟨fun _ => .ok ⟨e :: rest⟩, dg, da⟩ q =
      catchWrapExecute (match e.ticket with
        | none => .error (.flightErr "FlightSQLError" "No ticket returned from endpoint" none)
        | some t => dg t) ∧
    executePrepared ⟨fun _ => .ok ⟨e :: rest⟩, dg, da⟩ p =
      executePrepared ⟨fun _ => .ok ⟨e :: rest2⟩, dg, da⟩ p ∧
    getCatalogs ⟨fun _ => .ok ⟨e :: rest⟩, dg, da⟩ =
      getCatalogs ⟨fun _ => .ok ⟨e :: rest2⟩, dg, da⟩ := by
  refine ⟨?_, ?_, ?_, ?_⟩ <;> cases ht : e.ticket <;>
    simp [execute, executePrepared, getCatalogs, getQueryTicket, ht]

/-- C8 counterexample.  getCatalogs does not re-throw an already-typed
FlightError unchanged: when doGet fails with the typed FlightError
carrying code UNAUTHENTICATED, getCatalogs surfaces a new FlightSQLError
wrapping its rendering, not the original error. -/
theorem c8_typed_error_rewrapped_counterexample :
    getCatalogs ⟨fun _ => .ok ⟨[⟨some [1]⟩]⟩,
        fun _ => .error (.flightErr "FlightError" "Authentication failed"
          (some "UNAUTHENTICATED")),
        fun _ => .ok []⟩ =
      .error (.flightErr "FlightSQLError"
        "Failed to get catalogs: FlightError: Authentication failed" none) ∧
    getCatalogs ⟨fun _ => .ok ⟨[⟨some [1]⟩]⟩,
        fun _ => .error (.flightErr "FlightError" "Authentication failed"
          (some "UNAUTHENTICATED")),
        fun _ => .ok []⟩ ≠
      .error (.flightErr "FlightError" "Authentication failed"
        (some "UNAUTHENTICATED")) := by
  have h1 : getCatalogs ⟨fun _ => .ok ⟨[⟨some [1]⟩]⟩,
      fun _ => .error (.flightErr "FlightError" "Authentication failed"
        (some "UNAUTHENTICATED")),
      fun _ => .ok []⟩ =
    .error (.flightErr "FlightSQLError"
      "Failed to get catalogs: FlightError: Authentication failed" none) := rfl
  refine ⟨h1, ?_⟩
  rw [h1]
  intro hcontra
  simp only [Except.error.injEq, JSErrorR.flightErr.injEq] at hcontra
  exact absurd hcontra.1 (by decide)

/-- C8 as amended.  Only execute re-throws already-typed FlightError
failures unchanged (wrapping untyped failures exactly once); every other
command-layer method, executePrepared, prepare, closePrepared and the
metadata methods such as getCatalogs, wraps every lower-layer failure,
already typed or not, into a new FlightSQLError carrying the rendered
originating error, so typed errors surfacing through those methods are
wrapped again. -/
theorem c8_error_wrapping_amended (env : SQLEnv) (q : String)
    (p : PreparedStatementR) (e : JSErrorR) (s : String) :
    (env.flightInfoResp (createCommandDescriptor (CmdBytes.statementQuery q)
        COMMAND_STATEMENT_QUERY_URL) = .error e →
      isFlightErrorInstance e = true → execute env q = .error e) ∧
    (env.flightInfoResp (createCommandDescriptor (CmdBytes.statementQuery q)
        COMMAND_STATEMENT_QUERY_URL) = .error (.otherErr s) →
      execute env q = .error (.flightErr "FlightSQLError"
        ("Failed to execute query: " ++ s) none)) ∧
    (env.flightInfoResp ⟨.CMD, some (.raw CmdBytes.getCatalogsCmd)⟩ = .error e →
      getCatalogs env = .error (.flightErr "FlightSQLError"
        ("Failed to get catalogs: " ++ errInterpolate e) none)) ∧
    (env.flightInfoResp ⟨.CMD, some (.raw (CmdBytes.preparedStatementQuery p.handle))⟩ =
        .ok ⟨[]⟩ →
      executePrepared env p = .error (.flightErr "FlightSQLError"
        ("Failed to execute prepared statement: " ++
          "FlightSQLError: No endpoints returned from prepared query") none)) ∧
    (env.doActionResp (prepareSentAction q) = .error e →
      prepare env q = .error (.flightErr "FlightSQLError"
        ("Failed to prepare statement: " ++ errInterpolate e) none)) ∧
    (env.doActionResp (closePreparedSentAction p.handle) = .error e →
      closePrepared env p = .error (.flightErr "FlightSQLError"
        ("Failed to close prepared statement: " ++ errInterpolate e) none)) := by
  refine ⟨fun hfi hinst => ?_, fun hfi => ?_, fun hfi => ?_, fun hfi => ?_,
    fun hda => ?_, fun hda => ?_⟩
  · simp [execute, getQueryTicket, hfi, catchWrapExecute, hinst]
  · simp [execute, getQueryTicket, hfi, catchWrapExecute, isFlightErrorInstance,
      errInterpolate]
  · simp [getCatalogs, hfi, catchWrapAll]
  · simp [executePrepared, hfi, catchWrapAll, errInterpolate]
  · simp [prepare, hda, catchWrapAll]
  · simp [closePrepared, hda, catchWrapAll]

/-- Witness for C8 as amended, at a concrete environment, query, handle
and error. -/
theorem c8_error_wrapping_amended_witness :
    execute ⟨fun _ => .error (.flightErr "FlightError" "boom" none),
        fun _ => .ok ⟨[]⟩, fun _ => .ok []⟩ "q" =
      .error (.flightErr "FlightError" "boom" none) ∧
    prepare ⟨fun _ => .error (.flightErr "FlightError" "boom" none),
        fun _ => .ok ⟨[]⟩, fun _ => .error (.flightErr "FlightError" "boom" none)⟩ "q" =
      .error (.flightErr "FlightSQLError"
        ("Failed to prepare statement: " ++
          errInterpolate (.flightErr "FlightError" "boom" none)) none) :=
  ⟨(c8_error_wrapping_amended
      ⟨fun _ => .error (.flightErr "FlightError" "boom" none),
        fun _ => .ok ⟨[]⟩, fun _ => .ok []⟩ "q" ⟨[]⟩
      (.flightErr "FlightError" "boom" none) "s").1 rfl rfl,
   (c8_error_wrapping_amended
      ⟨fun _ => .error (.flightErr "FlightError" "boom" none),
        fun _ => .ok ⟨[]⟩, fun _ => .error (.flightErr "FlightError" "boom" none)⟩
      "q" ⟨[]⟩ (.flightErr "FlightError" "boom" none) "s").2.2.2.2.1 rfl⟩

/-- C9 counterexample.  A decoded result lacking the protocol-fixed
column catalog_name does not make getCatalogs fail: the method resolves
successfully, projecting the missing column as undefined. -/
theorem c9_missing_column_counterexample :
    getCatalogs ⟨fun _ => .ok ⟨[⟨some [1]⟩]⟩,
        fun _ => .ok ⟨[[("x", "y")]]⟩, fun _ => .ok []⟩ = .ok [none] ∧
    (getCatalogs ⟨fun _ => .ok ⟨[⟨some [1]⟩]⟩,
        fun _ => .ok ⟨[[("x", "y")]]⟩, fun _ => .ok []⟩).isOk = true :=
  ⟨rfl, rfl⟩

/-- C9 as amended.  The metadata methods project each decoded row on the
protocol-fixed column names, a missing column yielding an undefined
(none) field in the produced row; no decode failure is raised for a
missing column, the method resolves with those projections. -/
theorem c9_missing_column_amended (t : List Nat) (rows : List RowR)
    (rest : List FlightEndpointR)
    (da : DescriptorR → Except JSErrorR (List ActionResultR))
    (catalog dbSchema tableName : Option String)
    (tableTypes : Option (List String)) :
    getCatalogs ⟨fun _ => .ok ⟨⟨some t⟩ :: rest⟩, fun _ => .ok ⟨rows⟩, da⟩ =
      .ok (rows.map (fun row => rowGet row "catalog_name")) ∧
    getTables ⟨fun _ => .ok ⟨⟨some t⟩ :: rest⟩, fun _ => .ok ⟨rows⟩, da⟩
        catalog dbSchema tableName tableTypes =
      .ok (rows.map (fun row =>
        (⟨rowGet row "catalog_name", rowGet row "db_schema_name",
          rowGet row "table_name", rowGet row "table_type"⟩ : TableListingR))) :=
  ⟨rfl, rfl⟩
